import Mathlib

/-!
Shallow embedding of the access-control, social-login, like-toggle and
media-upload logic of the `social_media_backend` Django repository
(`users/views.py`, `users/models.py`, `users/serializers.py`,
`users/social_auth.py`, `users/validators.py`), together with proofs of
the specification's testable properties.

Rows of the relational store are modelled as Lean structures, tables as
lists of rows, and each Django/DRF view method as a pure function from
the relevant parts of the store (plus the request data) to a response
and possibly an updated store.  Primary keys are `Nat`; principals are
identified by their user id.  `Post.privacy` is the literal string
stored by the `CharField` (`"public"` or `"private"`), compared exactly
as the Python code compares it.
-/

namespace SocialMedia

/-- A principal, as seen by a DRF view: `request.user`.  `is_authenticated`
is false for `AnonymousUser`; `is_staff` is the staff flag of
`CustomUser` (inherited from `AbstractUser`). -/
structure User where
  id : Nat
  is_staff : Bool
  is_authenticated : Bool
  deriving DecidableEq, Repr

/-- A row of the `Post` table (`users/models.py`): author is the owning
user's id, `privacy` the stored choice string. -/
structure Post where
  id : Nat
  author : Nat
  privacy : String
  deriving DecidableEq, Repr

/-- Response outcome at the HTTP boundary, as far as the claims need to
distinguish it: success, 404 Not Found, 403 Forbidden. -/
inductive Signal where
  | ok
  | notFound
  | forbidden
  deriving DecidableEq, Repr

/-- `PostViewSet.get_queryset` (`users/views.py` lines 342-351): staff see
every post; authenticated non-staff see public posts plus their own;
the unauthenticated branch (dead in practice, since `IsAuthenticated`
rejects anonymous requests first) sees only public posts. -/
def get_queryset (posts : List Post) (u : User) : List Post :=
  if ¬ u.is_authenticated then posts.filter (fun p => p.privacy == "public")
  else if u.is_staff then posts
  else posts.filter (fun p => p.privacy == "public" || p.author == u.id)

/-- DRF's generic `get_object` restricted to the visibility part: look the
pk up inside the view's queryset; a miss raises `Http404`. -/
def retrieve_post (posts : List Post) (u : User) (pk : Nat) : Signal :=
  match (get_queryset posts u).find? (fun p => p.id == pk) with
  | none => .notFound
  | some _ => .ok

/-- Membership in the filtered queryset of an authenticated non-staff
principal, unfolded once and for all. -/
theorem mem_queryset_iff (posts : List Post) (u : User)
    (hauth : u.is_authenticated = true) (hstaff : u.is_staff = false) (q : Post) :
    q ∈ get_queryset posts u ↔
      q ∈ posts ∧ (q.privacy = "public" ∨ q.author = u.id) := by
  simp [get_queryset, hauth, hstaff, List.mem_filter]

/-- `find?` returns the element when it is the unique satisfier in the list. -/
theorem find?_eq_some_of_unique {α : Type} {p : α → Bool} {l : List α} {x : α}
    (hx : x ∈ l) (hpx : p x = true) (huniq : ∀ y ∈ l, p y = true → y = x) :
    l.find? p = some x := by
  induction l with
  | nil => cases hx
  | cons a t ih =>
    by_cases ha : p a = true
    · have hax : a = x := huniq a (List.mem_cons_self a t) ha
      subst hax
      exact List.find?_cons_of_pos t ha
    · rw [List.find?_cons_of_neg t (by simpa using ha)]
      have hx' : x ∈ t := by
        cases hx with
        | head => exact absurd hpx ha
        | tail _ h => exact h
      exact ih hx' (fun y hy hpy => huniq y (List.mem_cons_of_mem a hy) hpy)

/-- The claim C3: listing posts as a non-staff principal returns exactly
{public posts} ∪ {own posts}; staff get the unfiltered table; a private
post of another principal is never listed to a non-staff principal. -/
theorem C3_list_filter (posts : List Post) (u : User)
    (hauth : u.is_authenticated = true) :
    (u.is_staff = false →
      ∀ p : Post, p ∈ get_queryset posts u ↔
        p ∈ posts ∧ (p.privacy = "public" ∨ p.author = u.id)) ∧
    (u.is_staff = true → get_queryset posts u = posts) ∧
    (u.is_staff = false →
      ∀ p ∈ get_queryset posts u, p.privacy = "private" → p.author = u.id) := by
  refine ⟨?_, ?_, ?_⟩
  · intro hstaff p
    exact mem_queryset_iff posts u hauth hstaff p
  · intro hstaff
    simp [get_queryset, hauth, hstaff]
  · intro hstaff p hp hpriv
    rw [get_queryset] at hp
    simp only [hauth, hstaff] at hp
    simp only [not_true, if_false, if_neg Bool.false_ne_true] at hp
    rcases List.mem_filter.mp hp with ⟨-, hcond⟩
    simp only [Bool.or_eq_true, beq_iff_eq] at hcond
    rcases hcond with h | h
    · rw [hpriv] at h; exact absurd h (by decide)
    · exact h

/-- Witness for C3 at a concrete store: user 2 (non-staff) sees the public
post 1 and their own private post 2, not user 1's private post 3. -/
theorem C3_list_filter_witness :
    (true : Bool) = true ∧
    ((⟨2, false, true⟩ : User).is_staff = false →
      ∀ p : Post,
        p ∈ get_queryset
            [⟨1, 1, "public"⟩, ⟨2, 2, "private"⟩, ⟨3, 1, "private"⟩]
            ⟨2, false, true⟩ ↔
        p ∈ [⟨1, 1, "public"⟩, ⟨2, 2, "private"⟩, ⟨3, 1, "private"⟩] ∧
          (p.privacy = "public" ∨ p.author = (⟨2, false, true⟩ : User).id)) ∧
    ((⟨2, false, true⟩ : User).is_staff = true →
      get_queryset
          [⟨1, 1, "public"⟩, ⟨2, 2, "private"⟩, ⟨3, 1, "private"⟩]
          ⟨2, false, true⟩ =
        [⟨1, 1, "public"⟩, ⟨2, 2, "private"⟩, ⟨3, 1, "private"⟩]) ∧
    ((⟨2, false, true⟩ : User).is_staff = false →
      ∀ p ∈ get_queryset
          [⟨1, 1, "public"⟩, ⟨2, 2, "private"⟩, ⟨3, 1, "private"⟩]
          ⟨2, false, true⟩, p.privacy = "private" → p.author = (⟨2, false, true⟩ : User).id) :=
  ⟨rfl, C3_list_filter
    [⟨1, 1, "public"⟩, ⟨2, 2, "private"⟩, ⟨3, 1, "private"⟩]
    ⟨2, false, true⟩ rfl⟩

/-!  Likes.  A row of the `Like` table is the pair (post id, user id);
`unique_together = ('post','user')` makes the table a duplicate-free
list of such pairs.  `created_at` is irrelevant to every claim and
elided. -/

/-- `post.likes.count()`: number of Like rows for the given post. -/
def likes_count (likes : List (Nat × Nat)) (pid : Nat) : Nat :=
  (likes.filter (fun l => l.1 == pid)).length

/-- Body of `PostViewSet.like` (`users/views.py` lines 387-394) after the
post has been fetched: `Like.objects.get_or_create(post, user)`; when the
row already existed it is deleted instead.  Returns ((liked, likes_count),
new Like table).  The position of a freshly inserted row in the list is
immaterial (the table is a set under the uniqueness constraint). -/
def like_toggle (likes : List (Nat × Nat)) (pid uid : Nat) :
    (Bool × Nat) × List (Nat × Nat) :=
  if (pid, uid) ∈ likes then
    let likes' := likes.erase (pid, uid)
    ((false, likes_count likes' pid), likes')
  else
    let likes' := (pid, uid) :: likes
    ((true, likes_count likes' pid), likes')

/-- The whole `like` action: `self.get_object()` (queryset lookup, hence
404 — modelled as `none` — when the post is hidden or absent), then the
toggle. -/
def like_view (posts : List Post) (likes : List (Nat × Nat)) (u : User) (pk : Nat) :
    Option ((Bool × Nat) × List (Nat × Nat)) :=
  match (get_queryset posts u).find? (fun p => p.id == pk) with
  | none => none
  | some p => some (like_toggle likes p.id u.id)

/-- `CommentViewSet.perform_create` (`users/views.py` lines 419-431):
`Post.objects.get(id=post_id)` over the whole table, `Http404` when the
post is absent or is a private post of another user; otherwise the
comment is saved (`.ok`). -/
def comment_create (posts : List Post) (u : User) (post_pk : Nat) : Signal :=
  match posts.find? (fun p => p.id == post_pk) with
  | none => .notFound
  | some p =>
    if p.privacy == "private" && p.author != u.id then .notFound else .ok

/-- A private post of another principal never makes it into the queryset
lookup of an authenticated non-staff principal. -/
theorem hidden_find?_eq_none (posts : List Post) (u : User) (p : Post)
    (hauth : u.is_authenticated = true) (hstaff : u.is_staff = false)
    (huniq : ∀ q ∈ posts, q.id = p.id → q = p)
    (hpriv : p.privacy = "private") (hown : p.author ≠ u.id) :
    (get_queryset posts u).find? (fun q => q.id == p.id) = none := by
  rw [List.find?_eq_none]
  intro q hq hbeq
  have hqid : q.id = p.id := by simpa using hbeq
  rcases (mem_queryset_iff posts u hauth hstaff q).mp hq with ⟨hqposts, hvis⟩
  have hqp : q = p := huniq q hqposts hqid
  subst hqp
  rcases hvis with h | h
  · rw [hpriv] at h; exact absurd h (by decide)
  · exact hown h

/-- The claim C1: for an authenticated principal who is neither the owner
nor staff, a private post of someone else yields Not Found on GET
retrieval, on the like action, and on comment creation — and a
non-existent post id yields exactly the same three outcomes. -/
theorem C1_private_post_not_found (posts : List Post) (likes : List (Nat × Nat))
    (u : User) (p : Post)
    (hauth : u.is_authenticated = true) (hstaff : u.is_staff = false)
    (hmem : p ∈ posts) (huniq : ∀ q ∈ posts, q.id = p.id → q = p)
    (hpriv : p.privacy = "private") (hown : p.author ≠ u.id) :
    (retrieve_post posts u p.id = .notFound ∧
      like_view posts likes u p.id = none ∧
      comment_create posts u p.id = .notFound) ∧
    ∀ pk, (∀ q ∈ posts, q.id ≠ pk) →
      retrieve_post posts u pk = .notFound ∧
      like_view posts likes u pk = none ∧
      comment_create posts u pk = .notFound := by
  have hnone := hidden_find?_eq_none posts u p hauth hstaff huniq hpriv hown
  constructor
  · refine ⟨?_, ?_, ?_⟩
    · rw [retrieve_post, hnone]
    · rw [like_view, hnone]
    · rw [comment_create]
      have hfind : posts.find? (fun q => q.id == p.id) = some p :=
        find?_eq_some_of_unique hmem (by simp)
          (fun y hy hpy => huniq y hy (by simpa using hpy))
      rw [hfind]
      simp [hpriv, hown]
  · intro pk hpk
    have habs : ∀ (l : List Post), (∀ q ∈ l, q ∈ posts) →
        l.find? (fun q => q.id == pk) = none := by
      intro l hl
      rw [List.find?_eq_none]
      intro q hq hbeq
      exact hpk q (hl q hq) (by simpa using hbeq)
    have hqs : ∀ q ∈ get_queryset posts u, q ∈ posts := by
      intro q hq
      exact ((mem_queryset_iff posts u hauth hstaff q).mp hq).1
    refine ⟨?_, ?_, ?_⟩
    · rw [retrieve_post, habs _ hqs]
    · rw [like_view, habs _ hqs]
    · rw [comment_create, habs posts (fun q hq => hq)]

/-- Witness for C1: user 2 on user 1's private post 3, and on the absent
id 9, in a three-post store. -/
theorem C1_private_post_not_found_witness :
    (retrieve_post [⟨1, 1, "public"⟩, ⟨2, 2, "private"⟩, ⟨3, 1, "private"⟩]
        ⟨2, false, true⟩ 3 = .notFound ∧
      like_view [⟨1, 1, "public"⟩, ⟨2, 2, "private"⟩, ⟨3, 1, "private"⟩] [(1, 7)]
        ⟨2, false, true⟩ 3 = none ∧
      comment_create [⟨1, 1, "public"⟩, ⟨2, 2, "private"⟩, ⟨3, 1, "private"⟩]
        ⟨2, false, true⟩ 3 = .notFound) ∧
    ∀ pk, (∀ q ∈ [(⟨1, 1, "public"⟩ : Post), ⟨2, 2, "private"⟩, ⟨3, 1, "private"⟩],
        q.id ≠ pk) →
      retrieve_post [⟨1, 1, "public"⟩, ⟨2, 2, "private"⟩, ⟨3, 1, "private"⟩]
        ⟨2, false, true⟩ pk = .notFound ∧
      like_view [⟨1, 1, "public"⟩, ⟨2, 2, "private"⟩, ⟨3, 1, "private"⟩] [(1, 7)]
        ⟨2, false, true⟩ pk = none ∧
      comment_create [⟨1, 1, "public"⟩, ⟨2, 2, "private"⟩, ⟨3, 1, "private"⟩]
        ⟨2, false, true⟩ pk = .notFound :=
  C1_private_post_not_found
    [⟨1, 1, "public"⟩, ⟨2, 2, "private"⟩, ⟨3, 1, "private"⟩] [(1, 7)]
    ⟨2, false, true⟩ ⟨3, 1, "private"⟩ rfl rfl (by decide) (by decide) rfl (by decide)

/-- The set of distinct principals currently holding a Like on the post. -/
def distinctLikers (likes : List (Nat × Nat)) (pid : Nat) : Finset Nat :=
  ((likes.filter (fun l => l.1 == pid)).map Prod.snd).toFinset

/-- Under the `unique_together ('post','user')` constraint (duplicate-free
Like table) the stored count for a post is the number of distinct
principals holding a Like on it. -/
theorem likes_count_eq_card (l : List (Nat × Nat)) (pid : Nat) (h : l.Nodup) :
    likes_count l pid = (distinctLikers l pid).card := by
  have hfl : (l.filter (fun x => x.1 == pid)).Nodup := h.filter _
  have hmap : ((l.filter (fun x => x.1 == pid)).map Prod.snd).Nodup := by
    refine List.Nodup.map_on ?_ hfl
    intro x hx y hy hxy
    have hx1 : x.1 = pid := by simpa using List.of_mem_filter hx
    have hy1 : y.1 = pid := by simpa using List.of_mem_filter hy
    exact Prod.ext (hx1.trans hy1.symm) hxy
  rw [distinctLikers, List.toFinset_card_of_nodup hmap, List.length_map]
  rfl

/-- The claim C2: with no prior Like for (principal, post) and a
duplicate-free Like table, toggling twice returns liked=true then
liked=false, restores the original table, keeps it duplicate-free in
between, and both reported counts equal the number of distinct
principals holding a Like in the respective states. -/
theorem C2_like_toggle_pair (likes : List (Nat × Nat)) (pid uid : Nat)
    (hnodup : likes.Nodup) (hnew : (pid, uid) ∉ likes) :
    (like_toggle likes pid uid).1.1 = true ∧
    (like_toggle (like_toggle likes pid uid).2 pid uid).1.1 = false ∧
    (like_toggle (like_toggle likes pid uid).2 pid uid).2 = likes ∧
    (like_toggle likes pid uid).2.Nodup ∧
    (like_toggle likes pid uid).1.2 =
      (distinctLikers (like_toggle likes pid uid).2 pid).card ∧
    (like_toggle (like_toggle likes pid uid).2 pid uid).1.2 =
      (distinctLikers (like_toggle (like_toggle likes pid uid).2 pid uid).2 pid).card := by
  have h1 : like_toggle likes pid uid =
      ((true, likes_count ((pid, uid) :: likes) pid), (pid, uid) :: likes) := by
    rw [like_toggle, if_neg hnew]
  have herase : ((pid, uid) :: likes).erase (pid, uid) = likes :=
    List.erase_cons_head (pid, uid) likes
  have h2 : like_toggle ((pid, uid) :: likes) pid uid =
      ((false, likes_count likes pid), likes) := by
    rw [like_toggle, if_pos (List.mem_cons_self (pid, uid) likes)]
    simp only [herase]
  have hnodup1 : ((pid, uid) :: likes).Nodup := List.nodup_cons.mpr ⟨hnew, hnodup⟩
  rw [h1]
  simp only [h2]
  refine ⟨trivial, trivial, trivial, hnodup1, ?_, ?_⟩
  · exact likes_count_eq_card _ pid hnodup1
  · exact likes_count_eq_card _ pid hnodup

/-- Witness for C2: post 1, principal 2, in a table already holding a Like
by principal 7 on post 1 and one by principal 2 on post 5. -/
theorem C2_like_toggle_pair_witness :
    (like_toggle [(1, 7), (5, 2)] 1 2).1.1 = true ∧
    (like_toggle (like_toggle [(1, 7), (5, 2)] 1 2).2 1 2).1.1 = false ∧
    (like_toggle (like_toggle [(1, 7), (5, 2)] 1 2).2 1 2).2 = [(1, 7), (5, 2)] ∧
    (like_toggle [(1, 7), (5, 2)] 1 2).2.Nodup ∧
    (like_toggle [(1, 7), (5, 2)] 1 2).1.2 =
      (distinctLikers (like_toggle [(1, 7), (5, 2)] 1 2).2 1).card ∧
    (like_toggle (like_toggle [(1, 7), (5, 2)] 1 2).2 1 2).1.2 =
      (distinctLikers (like_toggle (like_toggle [(1, 7), (5, 2)] 1 2).2 1 2).2 1).card :=
  C2_like_toggle_pair [(1, 7), (5, 2)] 1 2 (by decide) (by decide)

/-- DRF's `permissions.SAFE_METHODS`. -/
def SAFE_METHODS : List String := ["GET", "HEAD", "OPTIONS"]

/-- `IsOwnerOrReadOnly.has_object_permission` (`users/views.py` lines
174-178): safe methods always pass; otherwise
`getattr(obj, 'author', None) == request.user`.  The object's author
attribute is an `Option Nat` (`none` when the attribute is absent, as on
`Media`); the principal is its user id, and `None == request.user` is
false for an authenticated user.  The function never consults
`is_staff`. -/
def has_object_permission (method : String) (obj_author : Option Nat) (u : User) : Bool :=
  if method ∈ SAFE_METHODS then true
  else obj_author == some u.id

/-- A write-verb request on a post through `PostViewSet`
(update/partial_update/destroy): DRF fetches the object from the view's
queryset (miss ⇒ 404), then runs `check_object_permissions`
(denial ⇒ 403), then performs the write. -/
def post_write_request (posts : List Post) (u : User) (pk : Nat) (method : String) :
    Signal :=
  match (get_queryset posts u).find? (fun p => p.id == pk) with
  | none => .notFound
  | some p =>
    if has_object_permission method (some p.author) u then .ok else .forbidden

/-- The claim C8: on a post the principal can see, a write verb is allowed
iff the principal is the author; in particular a staff non-owner is
denied with Forbidden (the `is_staff` flag of `u` is arbitrary here —
there is no staff override at object level). -/
theorem C8_owner_only_write (posts : List Post) (u : User) (pk : Nat)
    (method : String) (p : Post)
    (hm : method = "PUT" ∨ method = "PATCH" ∨ method = "DELETE")
    (hvis : (get_queryset posts u).find? (fun q => q.id == pk) = some p) :
    (post_write_request posts u pk method = .ok ↔ p.author = u.id) ∧
    (p.author ≠ u.id → post_write_request posts u pk method = .forbidden) := by
  have hunsafe : method ∉ SAFE_METHODS := by
    rcases hm with h | h | h <;> subst h <;> simp [SAFE_METHODS]
  have hperm : has_object_permission method (some p.author) u = (p.author == u.id) := by
    rw [has_object_permission, if_neg hunsafe]
    simp
  have hred : post_write_request posts u pk method =
      if p.author == u.id then Signal.ok else Signal.forbidden := by
    simp only [post_write_request, hvis, hperm]
  rw [hred]
  constructor
  · by_cases h : p.author = u.id <;> simp [h]
  · intro h
    simp [h]

/-- Witness for C8: a staff principal 9 issuing DELETE on the visible
public post 1 owned by principal 1 is denied. -/
theorem C8_owner_only_write_witness :
    (post_write_request [⟨1, 1, "public"⟩] ⟨9, true, true⟩ 1 "DELETE" = .ok ↔
      (⟨1, 1, "public"⟩ : Post).author = (⟨9, true, true⟩ : User).id) ∧
    ((⟨1, 1, "public"⟩ : Post).author ≠ (⟨9, true, true⟩ : User).id →
      post_write_request [⟨1, 1, "public"⟩] ⟨9, true, true⟩ 1 "DELETE" = .forbidden) :=
  C8_owner_only_write [⟨1, 1, "public"⟩] ⟨9, true, true⟩ 1 "DELETE" ⟨1, 1, "public"⟩
    (Or.inr (Or.inr rfl)) (by decide)

/-- A row of the `Media` table (`users/models.py`): foreign keys `post`
and `uploaded_by`, plus the metadata columns filled in from
`validate_media_file`.  The stored file blob itself is opaque and
elided. -/
structure MediaRow where
  id : Nat
  post : Nat
  content_type : String
  size : Nat
  width : Option Nat
  height : Option Nat
  uploaded_by : Nat
  deriving DecidableEq, Repr

/-- `obj.post.author`: the author of the post a media row points at,
resolved through the Post table (`none` cannot occur for a well-formed
store, the column being a foreign key). -/
def media_post_author (posts : List Post) (m : MediaRow) : Option Nat :=
  (posts.find? (fun q => q.id == m.post)).map Post.author

/-- `MediaDetailView.get_object` (`users/views.py` lines 551-565): the
queryset is `Media.objects.filter(post_id=post_pk)`, the generic lookup
finds `pk` in it (miss ⇒ 404 ⇒ `none`), and then the extra check raises
`Http404` unless the principal is the parent post's author or the
media's uploader.  Post privacy is never consulted. -/
def media_detail_get_object (media : List MediaRow) (posts : List Post) (u : User)
    (post_pk pk : Nat) : Option MediaRow :=
  match (media.filter (fun m => m.post == post_pk)).find? (fun m => m.id == pk) with
  | none => none
  | some m =>
    if media_post_author posts m != some u.id && m.uploaded_by != u.id then none
    else some m

/-- `MediaDetailView.delete`: fetches the object through
`media_detail_get_object` (404 propagates as `none`) and deletes the row
with that primary key, returning the updated Media table. -/
def media_detail_delete (media : List MediaRow) (posts : List Post) (u : User)
    (post_pk pk : Nat) : Option (List MediaRow) :=
  (media_detail_get_object media posts u post_pk pk).map
    (fun m => media.filter (fun x => x.id != m.id))

/-- The claim C9: a media row is returned (and deletable) iff the
principal is the parent post's author or the row's uploader; any other
principal gets Not Found — the post's privacy (left unconstrained here,
so in particular `"public"`) plays no role. -/
theorem C9_media_detail_owner_or_uploader (media : List MediaRow)
    (posts : List Post) (u : User) (m : MediaRow) (p : Post)
    (hmem : m ∈ media) (hmuniq : ∀ x ∈ media, x.id = m.id → x = m)
    (hp : p ∈ posts) (hpid : p.id = m.post)
    (hpuniq : ∀ q ∈ posts, q.id = p.id → q = p) :
    (media_detail_get_object media posts u m.post m.id = some m ↔
      (p.author = u.id ∨ m.uploaded_by = u.id)) ∧
    (p.author ≠ u.id → m.uploaded_by ≠ u.id →
      media_detail_get_object media posts u m.post m.id = none ∧
      media_detail_delete media posts u m.post m.id = none) ∧
    ((p.author = u.id ∨ m.uploaded_by = u.id) →
      media_detail_delete media posts u m.post m.id =
        some (media.filter (fun x => x.id != m.id))) := by
  have hfind : (media.filter (fun x => x.post == m.post)).find?
      (fun x => x.id == m.id) = some m := by
    refine find?_eq_some_of_unique ?_ (by simp) ?_
    · exact List.mem_filter.mpr ⟨hmem, by simp⟩
    · intro y hy hpy
      exact hmuniq y (List.mem_filter.mp hy).1 (by simpa using hpy)
  have hpfind : posts.find? (fun q => q.id == m.post) = some p := by
    refine find?_eq_some_of_unique hp (by simp [hpid]) ?_
    intro y hy hpy
    exact hpuniq y hy (by rw [hpid]; simpa using hpy)
  have hauthor : media_post_author posts m = some p.author := by
    rw [media_post_author, hpfind]
    rfl
  have hred : media_detail_get_object media posts u m.post m.id =
      if p.author ≠ u.id ∧ m.uploaded_by ≠ u.id then none else some m := by
    rw [media_detail_get_object, hfind]
    simp only [hauthor]
    by_cases h1 : p.author = u.id
    · simp [h1]
    · by_cases h2 : m.uploaded_by = u.id
      · simp [h1, h2]
      · simp [h1, h2]
  refine ⟨?_, ?_, ?_⟩
  · rw [hred]
    by_cases h1 : p.author = u.id
    · simp [h1]
    · by_cases h2 : m.uploaded_by = u.id
      · simp [h1, h2]
      · simp [h1, h2]
  · intro h1 h2
    rw [media_detail_delete, hred]
    simp [h1, h2]
  · intro h
    rw [media_detail_delete, hred]
    rcases h with h | h
    · simp [h]
    · simp [h]

/-- Witness for C9: media row 4 on public post 1 (author 1, uploader 5),
requested by the unrelated principal 2 and by the uploader 5 — applied
at the unrelated principal. -/
theorem C9_media_detail_owner_or_uploader_witness :
    (media_detail_get_object [⟨4, 1, "image/png", 10, none, none, 5⟩]
        [⟨1, 1, "public"⟩] ⟨2, false, true⟩ 1 4 =
        some ⟨4, 1, "image/png", 10, none, none, 5⟩ ↔
      ((⟨1, 1, "public"⟩ : Post).author = (⟨2, false, true⟩ : User).id ∨
        (⟨4, 1, "image/png", 10, none, none, 5⟩ : MediaRow).uploaded_by =
          (⟨2, false, true⟩ : User).id)) ∧
    ((⟨1, 1, "public"⟩ : Post).author ≠ (⟨2, false, true⟩ : User).id →
      (⟨4, 1, "image/png", 10, none, none, 5⟩ : MediaRow).uploaded_by ≠
        (⟨2, false, true⟩ : User).id →
      media_detail_get_object [⟨4, 1, "image/png", 10, none, none, 5⟩]
        [⟨1, 1, "public"⟩] ⟨2, false, true⟩ 1 4 = none ∧
      media_detail_delete [⟨4, 1, "image/png", 10, none, none, 5⟩]
        [⟨1, 1, "public"⟩] ⟨2, false, true⟩ 1 4 = none) ∧
    (((⟨1, 1, "public"⟩ : Post).author = (⟨2, false, true⟩ : User).id ∨
        (⟨4, 1, "image/png", 10, none, none, 5⟩ : MediaRow).uploaded_by =
          (⟨2, false, true⟩ : User).id) →
      media_detail_delete [⟨4, 1, "image/png", 10, none, none, 5⟩]
        [⟨1, 1, "public"⟩] ⟨2, false, true⟩ 1 4 =
        some ([⟨4, 1, "image/png", 10, none, none, 5⟩].filter
          (fun x => x.id != (⟨4, 1, "image/png", 10, none, none, 5⟩ : MediaRow).id))) :=
  C9_media_detail_owner_or_uploader [⟨4, 1, "image/png", 10, none, none, 5⟩]
    [⟨1, 1, "public"⟩] ⟨2, false, true⟩ ⟨4, 1, "image/png", 10, none, none, 5⟩
    ⟨1, 1, "public"⟩ (by decide) (by decide) (by decide) (by decide) (by decide)

/-- An uploaded file as `users/validators.py` sees it: Django's
`UploadedFile` exposes `name`, `size` and `content_type` (`""` models a
missing/falsy content type, as the Python `or ''` produces).  Whether
Pillow can open and verify the bytes, and the dimensions it extracts,
are abstracted into `image_ok`/`width`/`height`: image decoding is an
external library treated as an opaque function of the file. -/
structure UploadedFile where
  name : String
  size : Nat
  content_type : String
  image_ok : Bool
  width : Nat
  height : Nat
  deriving DecidableEq, Repr

/-- The metadata dict returned by `validate_media_file`. -/
structure MediaMeta where
  content_type : String
  size : Nat
  width : Option Nat
  height : Option Nat
  deriving DecidableEq, Repr

/-- `validate_media_file` (`users/validators.py` lines 7-45): rejects an
empty file, a file over `MEDIA_MAX_SIZE`, a content type outside a
non-empty `MEDIA_ALLOWED_CONTENT_TYPES`, and an undecodable `image/*`
payload; otherwise returns the metadata (dimensions only for images). -/
def validate_media_file (max_size : Nat) (allowed : List String) (f : UploadedFile) :
    Except String MediaMeta :=
  if f.size == 0 then .error "Empty file upload is not allowed"
  else if f.size > max_size then
    .error ("File exceeds maximum size of " ++ toString max_size ++ " bytes")
  else if !allowed.isEmpty && !allowed.contains f.content_type then
    .error ("Unsupported content type: " ++ f.content_type)
  else if f.content_type.startsWith "image/" then
    if f.image_ok then .ok ⟨f.content_type, f.size, some f.width, some f.height⟩
    else .error "Invalid image file"
  else .ok ⟨f.content_type, f.size, none, none⟩

/-- Whether `validate_media_file` rejects the file. -/
def fails_validation (max_size : Nat) (allowed : List String) (f : UploadedFile) : Bool :=
  match validate_media_file max_size allowed f with
  | .ok _ => false
  | .error _ => true

/-- The per-file loop of `MediaBatchUploadView.post` (`users/views.py`
lines 533-546): each file is validated independently; a success runs
`Media.objects.create` immediately (there is no enclosing transaction,
so earlier rows stay created whatever happens later in the loop); a
failure appends (filename, error).  Returns (created rows in order,
errors in order, final Media table, next primary key). -/
def batch_loop (post_pk uid max_size : Nat) (allowed : List String) :
    List UploadedFile → List MediaRow → Nat →
      List MediaRow × List (String × String) × List MediaRow × Nat
  | [], media, nid => ([], [], media, nid)
  | f :: fs, media, nid =>
    match validate_media_file max_size allowed f with
    | .error e =>
      let r := batch_loop post_pk uid max_size allowed fs media nid
      (r.1, (f.name, e) :: r.2.1, r.2.2.1, r.2.2.2)
    | .ok meta =>
      let row : MediaRow :=
        ⟨nid, post_pk, meta.content_type, meta.size, meta.width, meta.height, uid⟩
      let r := batch_loop post_pk uid max_size allowed fs (media ++ [row]) (nid + 1)
      (row :: r.1, r.2.1, r.2.2.1, r.2.2.2)

/-- Outcome of a batch-upload request. -/
inductive BatchResult where
  | notFound
  | badRequest (error : String)
  | multi (status : Nat) (created : List MediaRow) (errors : List (String × String))
      (media : List MediaRow) (next_id : Nat)
  deriving DecidableEq, Repr

/-- `MediaBatchUploadView.post` (`users/views.py` lines 517-548): resolve
the post (404 when absent or a private post of another principal),
reject an empty file list with 400 "No files provided", otherwise run
the per-file loop and answer 207 when any error was recorded, 201 when
none was. -/
def media_batch_upload (posts : List Post) (media : List MediaRow) (next_id : Nat)
    (u : User) (post_pk : Nat) (files : List UploadedFile)
    (max_size : Nat) (allowed : List String) : BatchResult :=
  match posts.find? (fun p => p.id == post_pk) with
  | none => .notFound
  | some p =>
    if p.privacy == "private" && p.author != u.id then .notFound
    else if files.isEmpty then .badRequest "No files provided"
    else
      let r := batch_loop post_pk u.id max_size allowed files media next_id
      .multi (if r.2.1.isEmpty then 201 else 207) r.1 r.2.1 r.2.2.1 r.2.2.2

/-- What the per-file loop produces: N-K created rows, K recorded errors,
and a final table that is the old one plus exactly the created rows (no
rollback). -/
theorem batch_loop_spec (post_pk uid max_size : Nat) (allowed : List String)
    (fs : List UploadedFile) (media : List MediaRow) (nid : Nat) :
    (batch_loop post_pk uid max_size allowed fs media nid).1.length =
      fs.length - fs.countP (fails_validation max_size allowed) ∧
    (batch_loop post_pk uid max_size allowed fs media nid).2.1.length =
      fs.countP (fails_validation max_size allowed) ∧
    (batch_loop post_pk uid max_size allowed fs media nid).2.2.1 =
      media ++ (batch_loop post_pk uid max_size allowed fs media nid).1 := by
  induction fs generalizing media nid with
  | nil => simp [batch_loop]
  | cons f fs ih =>
    have hK := List.countP_le_length (p := fails_validation max_size allowed) (l := fs)
    cases hval : validate_media_file max_size allowed f with
    | error e =>
      have hfail : fails_validation max_size allowed f = true := by
        rw [fails_validation, hval]
      rcases ih media nid with ⟨ih1, ih2, ih3⟩
      refine ⟨?_, ?_, ?_⟩ <;>
        simp [batch_loop, hval, List.countP_cons, hfail, ih1, ih2, ih3]
    | ok meta =>
      have hfail : fails_validation max_size allowed f = false := by
        rw [fails_validation, hval]
      rcases ih (media ++ [⟨nid, post_pk, meta.content_type, meta.size,
        meta.width, meta.height, uid⟩]) (nid + 1) with ⟨ih1, ih2, ih3⟩
      refine ⟨?_, ?_, ?_⟩
      · simp [batch_loop, hval, List.countP_cons, hfail, ih1]
        omega
      · simp [batch_loop, hval, List.countP_cons, hfail, ih2]
      · simp [batch_loop, hval, ih3]

/-- The claim C6: a non-empty batch of N files of which K fail validation
yields the partial-success response with exactly N-K created entries and
K errors, the store keeps every created row even when errors is
non-empty, and an all-fail batch still gets the partial-success shape
(created = [], N errors) rather than a hard failure. -/
theorem C6_batch_partial_success (posts : List Post) (media : List MediaRow)
    (next_id : Nat) (u : User) (post_pk : Nat) (files : List UploadedFile)
    (max_size : Nat) (allowed : List String) (p : Post)
    (hfind : posts.find? (fun q => q.id == post_pk) = some p)
    (hacc : (p.privacy == "private" && p.author != u.id) = false)
    (hne : files ≠ []) :
    ∃ created errors st nid,
      media_batch_upload posts media next_id u post_pk files max_size allowed =
        .multi (if errors.isEmpty then 201 else 207) created errors st nid ∧
      created.length =
        files.length - files.countP (fails_validation max_size allowed) ∧
      errors.length = files.countP (fails_validation max_size allowed) ∧
      st = media ++ created ∧
      (files.countP (fails_validation max_size allowed) = files.length →
        created = [] ∧ errors.length = files.length) := by
  rcases batch_loop_spec post_pk u.id max_size allowed files media next_id with
    ⟨h1, h2, h3⟩
  refine ⟨(batch_loop post_pk u.id max_size allowed files media next_id).1,
    (batch_loop post_pk u.id max_size allowed files media next_id).2.1,
    (batch_loop post_pk u.id max_size allowed files media next_id).2.2.1,
    (batch_loop post_pk u.id max_size allowed files media next_id).2.2.2,
    ?_, h1, h2, h3, ?_⟩
  · have hne' : files.isEmpty = false := by
      cases files with
      | nil => exact absurd rfl hne
      | cons a l => rfl
    simp [media_batch_upload, hfind, hacc, hne']
  · intro hall
    constructor
    · have : (batch_loop post_pk u.id max_size allowed files media next_id).1.length = 0 := by
        rw [h1, hall]; omega
      exact List.length_eq_zero.mp this
    · rw [h2, hall]

/-- Witness for C6: principal 2 uploads two files to public post 1 —
"a.png" (valid 10-byte image) and "b.bin" (empty, rejected) — so N = 2,
K = 1. -/
theorem C6_batch_partial_success_witness :
    ∃ created errors st nid,
      media_batch_upload [⟨1, 1, "public"⟩] [] 1 ⟨2, false, true⟩ 1
          [⟨"a.png", 10, "image/png", true, 4, 4⟩, ⟨"b.bin", 0, "", false, 0, 0⟩]
          100 [] =
        .multi (if errors.isEmpty then 201 else 207) created errors st nid ∧
      created.length =
        [(⟨"a.png", 10, "image/png", true, 4, 4⟩ : UploadedFile),
          ⟨"b.bin", 0, "", false, 0, 0⟩].length -
          [(⟨"a.png", 10, "image/png", true, 4, 4⟩ : UploadedFile),
            ⟨"b.bin", 0, "", false, 0, 0⟩].countP (fails_validation 100 []) ∧
      errors.length =
        [(⟨"a.png", 10, "image/png", true, 4, 4⟩ : UploadedFile),
          ⟨"b.bin", 0, "", false, 0, 0⟩].countP (fails_validation 100 []) ∧
      st = [] ++ created ∧
      ([(⟨"a.png", 10, "image/png", true, 4, 4⟩ : UploadedFile),
          ⟨"b.bin", 0, "", false, 0, 0⟩].countP (fails_validation 100 []) =
        [(⟨"a.png", 10, "image/png", true, 4, 4⟩ : UploadedFile),
          ⟨"b.bin", 0, "", false, 0, 0⟩].length →
        created = [] ∧ errors.length =
          [(⟨"a.png", 10, "image/png", true, 4, 4⟩ : UploadedFile),
            ⟨"b.bin", 0, "", false, 0, 0⟩].length) :=
  C6_batch_partial_success [⟨1, 1, "public"⟩] [] 1 ⟨2, false, true⟩ 1
    [⟨"a.png", 10, "image/png", true, 4, 4⟩, ⟨"b.bin", 0, "", false, 0, 0⟩]
    100 [] ⟨1, 1, "public"⟩ (by decide) (by decide) (by decide)

/-- The claim C10: an authenticated request on an accessible post with an
empty file list gets the 400 "No files provided" error, not the empty
partial-success result. -/
theorem C10_empty_batch_bad_request (posts : List Post) (media : List MediaRow)
    (next_id : Nat) (u : User) (post_pk : Nat)
    (max_size : Nat) (allowed : List String) (p : Post)
    (_hauth : u.is_authenticated = true)
    (hfind : posts.find? (fun q => q.id == post_pk) = some p)
    (hacc : (p.privacy == "private" && p.author != u.id) = false) :
    media_batch_upload posts media next_id u post_pk [] max_size allowed =
      .badRequest "No files provided" ∧
    ∀ s created errors st nid,
      media_batch_upload posts media next_id u post_pk [] max_size allowed ≠
        .multi s created errors st nid := by
  constructor
  · simp [media_batch_upload, hfind, hacc]
  · intro s created errors st nid
    simp [media_batch_upload, hfind, hacc]

/-- Witness for C10: principal 2 posts an empty batch to public post 1. -/
theorem C10_empty_batch_bad_request_witness :
    media_batch_upload [⟨1, 1, "public"⟩] [] 1 ⟨2, false, true⟩ 1 [] 100 [] =
      .badRequest "No files provided" ∧
    ∀ s created errors st nid,
      media_batch_upload [⟨1, 1, "public"⟩] [] 1 ⟨2, false, true⟩ 1 [] 100 [] ≠
        .multi s created errors st nid :=
  C10_empty_batch_bad_request [⟨1, 1, "public"⟩] [] 1 ⟨2, false, true⟩ 1 100 []
    ⟨1, 1, "public"⟩ rfl (by decide) (by decide)

/-!  Accounts, profiles and social identities
(`users/models.py`, `users/serializers.py`, `users/social_auth.py`). -/

/-- A row of the user table: unique email, optional name fields, and the
stored password hash (`none` models Django's unusable password, set when
`create_user` receives `password=None` for social-only accounts). -/
structure UserRow where
  id : Nat
  email : String
  first_name : String
  last_name : String
  password_hash : Option String
  deriving DecidableEq, Repr

/-- A row of the `Profile` table (avatar and timestamps elided). -/
structure ProfileRow where
  user : Nat
  display_name : String
  bio : String
  deriving DecidableEq, Repr

/-- A row of allauth's `SocialAccount` table: (provider, uid) bound to one
user; `extra_data` is elided. -/
structure SocialAccountRow where
  provider : String
  uid : String
  user : Nat
  deriving DecidableEq, Repr

/-- The relational store for the account-side operations. -/
structure DB where
  users : List UserRow
  profiles : List ProfileRow
  social_accounts : List SocialAccountRow
  next_user_id : Nat
  deriving DecidableEq, Repr

/-- Django's password hasher, treated as an opaque injective tagging whose
only documented property is that `check_password p (make_password p)`
holds. -/
def make_password (p : String) : String := "hashed$" ++ p

/-- Django's `check_password`. -/
def check_password (p stored : String) : Bool := stored == make_password p

/-- Python `str.strip()` on the character list: drop whitespace from both
ends. -/
def trimChars (l : List Char) : List Char :=
  ((l.dropWhile Char.isWhitespace).reverse.dropWhile Char.isWhitespace).reverse

/-- Django's `BaseUserManager.normalize_email`: strip whitespace, split at
the LAST "@" (`rsplit('@', 1)`), lowercase the domain part; a value
without "@" is returned unchanged (the `ValueError` branch).  Written on
the string's character list. -/
def normalize_email (email : String) : String :=
  let cs := trimChars email.data
  if cs.contains '@' then
    let rev := cs.reverse
    let domainRev := rev.takeWhile (fun c => c ≠ '@')
    let nameRev := rev.drop (domainRev.length + 1)
    String.mk (nameRev.reverse ++ '@' :: (domainRev.reverse.map Char.toLower))
  else email

/-- `email.split('@')[0]`: the characters before the first "@" (the whole
string when there is none). -/
def email_local_part (email : String) : String :=
  String.mk (email.data.takeWhile (fun c => c ≠ '@'))

/-- `CustomUserManager.create_user` (`users/models.py` lines 8-15):
requires a non-empty email, normalizes it, hashes the password and saves
the row — the `unique=True` email column makes the save raise on a
duplicate of the NORMALIZED email (string comparison in the store is
exact, as in sqlite/postgres). -/
def create_user (db : DB) (email : String) (password : Option String)
    (first_name last_name : String) : Except String (Nat × DB) :=
  if email == "" then .error "The Email field must be set"
  else
    let email' := normalize_email email
    if db.users.any (fun x => x.email == email') then
      .error "IntegrityError: duplicate email"
    else
      .ok (db.next_user_id,
        { db with
          users := db.users ++
            [⟨db.next_user_id, email', first_name, last_name, password.map make_password⟩],
          next_user_id := db.next_user_id + 1 })

/-- The registration request body. -/
structure RegistrationInput where
  email : String
  password : String
  password_confirm : String
  display_name : Option String
  deriving DecidableEq, Repr

/-- `UserRegistrationSerializer` as driven by `RegisterView`
(`users/serializers.py` lines 10-39): DRF field validation first — the
`UniqueValidator` generated for the unique email column (checked against
the raw input value) and `validate_password` (the configured complexity
policy, an opaque predicate parameter) — then the serializer-level
passwords-match check, then `create`: `create_user` followed by exactly
one `Profile.objects.create`, the display name defaulting to the local
part of the stored email.  Any validation failure raises before anything
is written. -/
def register (policy : String → Bool) (db : DB) (inp : RegistrationInput) :
    Except String (Nat × DB) :=
  if db.users.any (fun x => x.email == inp.email) then
    .error "user with this email already exists."
  else if !policy inp.password then
    .error "password fails the complexity policy"
  else if inp.password != inp.password_confirm then
    .error "Passwords don't match"
  else
    match create_user db inp.email (some inp.password) "" "" with
    | .error e => .error e
    | .ok (uid, db') =>
      let dn0 := inp.display_name.getD ""
      let dn := if dn0 == "" then email_local_part (normalize_email inp.email) else dn0
      .ok (uid, { db' with profiles := db'.profiles ++ [⟨uid, dn, ""⟩] })

/-- The claim C7: a successful registration leaves the new account with
exactly one Profile and a password hash that verifies against the
supplied password; mismatched passwords, a taken email, or a
policy-rejected password make registration fail with a validation error
(and then nothing is created — `register` returns no store). -/
theorem C7_registration (policy : String → Bool) (db : DB) (inp : RegistrationInput)
    (hfresh : ∀ pr ∈ db.profiles, pr.user ≠ db.next_user_id) :
    (∀ uid db', register policy db inp = .ok (uid, db') →
      (db'.profiles.filter (fun pr => pr.user == uid)).length = 1 ∧
      ∃ row ∈ db'.users, row.id = uid ∧
        ∃ h, row.password_hash = some h ∧ check_password inp.password h = true) ∧
    ((inp.password ≠ inp.password_confirm ∨
        db.users.any (fun x => x.email == inp.email) = true ∨
        policy inp.password = false) →
      ∃ e, register policy db inp = .error e) := by
  constructor
  · intro uid db' hok
    rw [register] at hok
    split at hok
    · cases hok
    · split at hok
      · cases hok
      · split at hok
        · cases hok
        · split at hok
          · cases hok
          · rename_i heq
            simp only [create_user] at heq
            split at heq
            · cases heq
            · split at heq
              · cases heq
              · simp only [Except.ok.injEq, Prod.mk.injEq] at heq hok
                rcases heq with ⟨huid, hdb⟩
                rcases hok with ⟨huid', hdb'⟩
                subst huid hdb huid' hdb'
                constructor
                · rw [List.filter_append]
                  have hold : db.profiles.filter (fun pr => pr.user == db.next_user_id) = [] := by
                    rw [List.filter_eq_nil_iff]
                    intro pr hpr
                    simpa using hfresh pr hpr
                  simp [hold]
                · refine ⟨⟨db.next_user_id, normalize_email inp.email, "", "",
                    some (make_password inp.password)⟩, ?_, rfl, make_password inp.password,
                    rfl, ?_⟩
                  · simp
                  · simp [check_password]
  · intro hbad
    rw [register]
    by_cases h1 : db.users.any (fun x => x.email == inp.email) = true
    · rw [if_pos h1]
      exact ⟨_, rfl⟩
    · rw [if_neg h1]
      by_cases h2 : policy inp.password = false
      · rw [if_pos (by simp [h2])]
        exact ⟨_, rfl⟩
      · rw [if_neg (by simp [Bool.not_eq_false] at h2; simp [h2])]
        have h3 : inp.password ≠ inp.password_confirm := by
          rcases hbad with hb | hb | hb
          · exact hb
          · exact absurd hb h1
          · exact absurd hb h2
        rw [if_pos (by simpa using h3)]
        exact ⟨_, rfl⟩

/-- An 8-character-minimum complexity policy, used to instantiate the
opaque `validate_password` parameter in the C7 witness. -/
def policy8 (p : String) : Bool := 8 ≤ p.length

/-- Witness for C7: registering `new@example.com` against a store already
holding user 0 (`old@example.com`), with an 8-character-minimum policy. -/
theorem C7_registration_witness :
    (∀ pr ∈ (⟨[⟨0, "old@example.com", "", "", some (make_password "oldpass1")⟩],
        [⟨0, "old", ""⟩], [], 1⟩ : DB).profiles,
      pr.user ≠ (⟨[⟨0, "old@example.com", "", "", some (make_password "oldpass1")⟩],
        [⟨0, "old", ""⟩], [], 1⟩ : DB).next_user_id) ∧
    ((∀ uid db', register policy8
        ⟨[⟨0, "old@example.com", "", "", some (make_password "oldpass1")⟩],
          [⟨0, "old", ""⟩], [], 1⟩
        ⟨"new@example.com", "Passw0rd", "Passw0rd", some "New"⟩ = .ok (uid, db') →
      (db'.profiles.filter (fun pr => pr.user == uid)).length = 1 ∧
      ∃ row ∈ db'.users, row.id = uid ∧
        ∃ h, row.password_hash = some h ∧ check_password "Passw0rd" h = true) ∧
    (("Passw0rd" : String) ≠ "Passw0rd" ∨
        (⟨[⟨0, "old@example.com", "", "", some (make_password "oldpass1")⟩],
          [⟨0, "old", ""⟩], [], 1⟩ : DB).users.any
          (fun x => x.email == "new@example.com") = true ∨
        policy8 "Passw0rd" = false →
      ∃ e, register policy8
        ⟨[⟨0, "old@example.com", "", "", some (make_password "oldpass1")⟩],
          [⟨0, "old", ""⟩], [], 1⟩
        ⟨"new@example.com", "Passw0rd", "Passw0rd", some "New"⟩ = .error e)) :=
  ⟨by decide, C7_registration policy8
    ⟨[⟨0, "old@example.com", "", "", some (make_password "oldpass1")⟩],
      [⟨0, "old", ""⟩], [], 1⟩
    ⟨"new@example.com", "Passw0rd", "Passw0rd", some "New"⟩ (by decide)⟩

/-- `find?` skips a prefix in which nothing matches. -/
theorem find?_append_of_none {α : Type} {p : α → Bool} {l₁ : List α} (l₂ : List α)
    (h : l₁.find? p = none) : (l₁ ++ l₂).find? p = l₂.find? p := by
  induction l₁ with
  | nil => simp
  | cons a t ih =>
    by_cases ha : p a = true
    · rw [List.find?_cons_of_pos t ha] at h
      cases h
    · rw [List.find?_cons_of_neg t (by simpa using ha)] at h
      rw [List.cons_append, List.find?_cons_of_neg _ (by simpa using ha)]
      exact ih h

/-- The provider claims used by `users/social_auth.py`: `""` models an
absent/falsy field, exactly what the Python `.get(...)` + truthiness
tests distinguish. -/
structure GoogleInfo where
  id : String
  email : String
  name : String
  given_name : String
  family_name : String
  deriving DecidableEq, Repr

/-- `create_user_from_google` (`users/social_auth.py` lines 175-226):
`create_user` with `password=None`, a new `SocialAccount`, and — since
the repository registers no profile-creation signal, a fresh user never
has a profile — one `Profile` whose display name falls back from the
provider's full name to "first last" to the email's local part. -/
def create_user_from_google (db : DB) (info : GoogleInfo) : Except String (Nat × DB) :=
  match create_user db info.email none info.given_name info.family_name with
  | .error e => .error e
  | .ok (uid, db') =>
    let db2 : DB := { db' with
      social_accounts := db'.social_accounts ++
        [(⟨"google", info.id, uid⟩ : SocialAccountRow)] }
    let n0 := info.name
    let n1 := if n0 == "" then (info.given_name ++ " " ++ info.family_name).trim else n0
    let n2 := if n1 == "" then email_local_part info.email else n1
    .ok (uid, { db2 with profiles := db2.profiles ++ [(⟨uid, n2, ""⟩ : ProfileRow)] })

/-- `get_or_create_user_from_google` (`users/social_auth.py` lines
133-172): error when email or subject id is missing; else first match
wins — (1) existing `SocialAccount` for (google, uid); (2) existing user
with EXACTLY the claimed email string, who gets a new `SocialAccount`
linked; (3) fresh account via `create_user_from_google`. -/
def get_or_create_user_from_google (db : DB) (info : GoogleInfo) :
    Except String ((Nat × Bool) × DB) :=
  if info.email == "" || info.id == "" then
    .error "Missing required user information from Google"
  else
    match db.social_accounts.find?
        (fun sa => sa.provider == "google" && sa.uid == info.id) with
    | some sa => .ok ((sa.user, false), db)
    | none =>
      match db.users.find? (fun x => x.email == info.email) with
      | some u =>
        .ok ((u.id, false),
          { db with social_accounts :=
              db.social_accounts ++ [⟨"google", info.id, u.id⟩] })
      | none =>
        match create_user_from_google db info with
        | .error e => .error e
        | .ok (uid, db') => .ok ((uid, true), db')

/-- Counterexample to C4 as stated: the store holds exactly one account,
`bob@x.com`; the provider claims subject `g1` with email `" bob@x.com"`
(leading space).  No `SocialAccount` matches and no account has the
claimed email string, so the claim requires a new account with
`created=true`; but `create_user` normalizes the email (stripping the
space) into a collision with the unique email column, and resolution
raises instead of creating anything. -/
theorem C4_counterexample :
    (⟨[⟨0, "bob@x.com", "", "", some (make_password "pw123456")⟩],
      [⟨0, "bob", ""⟩], [], 1⟩ : DB).social_accounts.find?
        (fun sa => sa.provider == "google" &&
          sa.uid == (⟨"g1", " bob@x.com", "", "", ""⟩ : GoogleInfo).id) = none ∧
    (⟨[⟨0, "bob@x.com", "", "", some (make_password "pw123456")⟩],
      [⟨0, "bob", ""⟩], [], 1⟩ : DB).users.find?
        (fun x => x.email == (⟨"g1", " bob@x.com", "", "", ""⟩ : GoogleInfo).email) =
      none ∧
    get_or_create_user_from_google
      ⟨[⟨0, "bob@x.com", "", "", some (make_password "pw123456")⟩],
        [⟨0, "bob", ""⟩], [], 1⟩
      ⟨"g1", " bob@x.com", "", "", ""⟩ =
      .error "IntegrityError: duplicate email" := ⟨rfl, rfl, rfl⟩

/-- Once a (google, subject-id) `SocialAccount` row for account `u` is
findable, resolution returns `u` with `created=false` and no store
change. -/
theorem resolve_after_link (db' : DB) (info : GoogleInfo) (u : Nat)
    (hg2 : (info.email == "" || info.id == "") = false)
    (hfind : db'.social_accounts.find?
      (fun sa => sa.provider == "google" && sa.uid == info.id) =
      some ⟨"google", info.id, u⟩) :
    get_or_create_user_from_google db' info = .ok ((u, false), db') := by
  simp only [get_or_create_user_from_google, hg2, Bool.false_eq_true, if_false, hfind]

/-- The amended claim C4: resolution is deterministic first-match-wins —
(1) an existing (provider, subject-id) identity returns its account with
created=false and no store change; (2) else an account with exactly the
claimed email gets the identity linked, created=false, no account
created; (3) else a fresh account is created with created=true PROVIDED
no stored email collides with the normalized claimed email; (3b) in that
residual collision case resolution fails with an error instead of
creating a duplicate; and (4) after any successful resolution, resolving
the same (provider, subject-id) again returns the same account with
created=false and no further store change. -/
theorem C4_social_resolution (db : DB) (info : GoogleInfo)
    (he : info.email ≠ "") (hi : info.id ≠ "") :
    (∀ sa, db.social_accounts.find?
        (fun sa => sa.provider == "google" && sa.uid == info.id) = some sa →
      get_or_create_user_from_google db info = .ok ((sa.user, false), db)) ∧
    (db.social_accounts.find?
        (fun sa => sa.provider == "google" && sa.uid == info.id) = none →
      ∀ u, db.users.find? (fun x => x.email == info.email) = some u →
        get_or_create_user_from_google db info =
          .ok ((u.id, false),
            { db with social_accounts :=
                db.social_accounts ++ [⟨"google", info.id, u.id⟩] })) ∧
    (db.social_accounts.find?
        (fun sa => sa.provider == "google" && sa.uid == info.id) = none →
      db.users.find? (fun x => x.email == info.email) = none →
      db.users.any (fun x => x.email == normalize_email info.email) = false →
      ∃ db', get_or_create_user_from_google db info =
          .ok ((db.next_user_id, true), db') ∧
        db'.social_accounts =
          db.social_accounts ++ [⟨"google", info.id, db.next_user_id⟩] ∧
        db'.users.length = db.users.length + 1) ∧
    (db.social_accounts.find?
        (fun sa => sa.provider == "google" && sa.uid == info.id) = none →
      db.users.find? (fun x => x.email == info.email) = none →
      db.users.any (fun x => x.email == normalize_email info.email) = true →
      ∃ e, get_or_create_user_from_google db info = .error e) ∧
    (∀ uid c db', get_or_create_user_from_google db info = .ok ((uid, c), db') →
      get_or_create_user_from_google db' info = .ok ((uid, false), db')) := by
  have he' : (info.email == "") = false := beq_eq_false_iff_ne.mpr he
  have hi' : (info.id == "") = false := beq_eq_false_iff_ne.mpr hi
  have hg : (info.email == "" || info.id == "") = false := by
    rw [he', hi']
    rfl
  have hrow : ∀ uid : Nat,
      ((fun sa : SocialAccountRow => sa.provider == "google" && sa.uid == info.id)
        (⟨"google", info.id, uid⟩ : SocialAccountRow)) = true := by
    intro uid
    simp
  refine ⟨?_, ?_, ?_, ?_, ?_⟩
  · intro sa hsa
    simp only [get_or_create_user_from_google, hg, Bool.false_eq_true, if_false, hsa]
  · intro hsa u hu
    simp only [get_or_create_user_from_google, hg, Bool.false_eq_true, if_false, hsa, hu]
  · intro hsa hu hnorm
    have hcu : create_user db info.email none info.given_name info.family_name =
        .ok (db.next_user_id,
          { db with
            users := db.users ++
              [⟨db.next_user_id, normalize_email info.email,
                info.given_name, info.family_name, none⟩],
            next_user_id := db.next_user_id + 1 }) := by
      simp only [create_user, he', Bool.false_eq_true, if_false, hnorm,
        Option.map_none']
    refine ⟨{ db with
        users := db.users ++ [⟨db.next_user_id, normalize_email info.email,
          info.given_name, info.family_name, none⟩],
        next_user_id := db.next_user_id + 1,
        social_accounts := db.social_accounts ++ [⟨"google", info.id, db.next_user_id⟩],
        profiles := db.profiles ++ [⟨db.next_user_id,
          if (if info.name == "" then (info.given_name ++ " " ++ info.family_name).trim
              else info.name) == "" then
            email_local_part info.email
          else
            (if info.name == "" then (info.given_name ++ " " ++ info.family_name).trim
              else info.name), ""⟩] }, ?_, ?_, ?_⟩
    · simp only [get_or_create_user_from_google, hg, Bool.false_eq_true, if_false,
        hsa, hu, create_user_from_google, hcu]
    · rfl
    · simp
  · intro hsa hu hnorm
    refine ⟨"IntegrityError: duplicate email", ?_⟩
    simp only [get_or_create_user_from_google, hg, Bool.false_eq_true, if_false,
      hsa, hu, create_user_from_google, create_user, he', hi', hnorm,
      Bool.false_or, if_true]
  · intro uid c db' hok
    have hkey : db'.social_accounts.find?
        (fun sa => sa.provider == "google" && sa.uid == info.id) =
        some ⟨"google", info.id, uid⟩ := by
      simp only [get_or_create_user_from_google, hg, Bool.false_eq_true, if_false] at hok
      split at hok
      · rename_i sa hsa
        simp only [Except.ok.injEq, Prod.mk.injEq] at hok
        rcases hok with ⟨⟨h1, h2⟩, h3⟩
        subst h1
        subst h3
        have hp := List.find?_some hsa
        simp only [Bool.and_eq_true, beq_iff_eq] at hp
        obtain ⟨sp, su, sur⟩ := sa
        rcases hp with ⟨hp1, hp2⟩
        subst hp1
        subst hp2
        exact hsa
      · rename_i hsa1
        split at hok
        · rename_i u hu
          simp only [Except.ok.injEq, Prod.mk.injEq] at hok
          rcases hok with ⟨⟨h1, h2⟩, h3⟩
          subst h1
          subst h3
          dsimp only
          rw [find?_append_of_none _ hsa1]
          exact List.find?_cons_of_pos _ (hrow _)
        · rename_i hu1
          split at hok
          · cases hok
          · rename_i uid2 db2 heq
            simp only [Except.ok.injEq, Prod.mk.injEq] at hok
            rcases hok with ⟨⟨h1, h2⟩, h3⟩
            subst h1
            subst h3
            rw [create_user_from_google] at heq
            split at heq
            · cases heq
            · rename_i uid3 db3 heq2
              simp only [Except.ok.injEq, Prod.mk.injEq] at heq
              rcases heq with ⟨h4, h5⟩
              subst h4
              subst h5
              simp only [create_user] at heq2
              split at heq2
              · cases heq2
              · split at heq2
                · cases heq2
                · simp only [Except.ok.injEq, Prod.mk.injEq] at heq2
                  rcases heq2 with ⟨h6, h7⟩
                  subst h6
                  subst h7
                  dsimp only
                  rw [find?_append_of_none _ hsa1]
                  exact List.find?_cons_of_pos _ (hrow _)
    exact resolve_after_link db' info uid hg hkey

/-- Witness for the amended C4: user 0 registered as `ann@x.com`, provider
claims (g7, `ann@x.com`) — the email-linking path applies, and each
conjunct is instantiated at this store. -/
theorem C4_social_resolution_witness :
    ((⟨"g7", "ann@x.com", "Ann A", "Ann", "A"⟩ : GoogleInfo).email ≠ "" ∧
      (⟨"g7", "ann@x.com", "Ann A", "Ann", "A"⟩ : GoogleInfo).id ≠ "") ∧
    ((∀ sa, (⟨[⟨0, "ann@x.com", "", "", some (make_password "pw123456")⟩],
        [⟨0, "ann", ""⟩], [], 1⟩ : DB).social_accounts.find?
        (fun sa => sa.provider == "google" &&
          sa.uid == (⟨"g7", "ann@x.com", "Ann A", "Ann", "A"⟩ : GoogleInfo).id) =
        some sa →
      get_or_create_user_from_google
        ⟨[⟨0, "ann@x.com", "", "", some (make_password "pw123456")⟩],
          [⟨0, "ann", ""⟩], [], 1⟩
        ⟨"g7", "ann@x.com", "Ann A", "Ann", "A"⟩ =
        .ok ((sa.user, false),
          ⟨[⟨0, "ann@x.com", "", "", some (make_password "pw123456")⟩],
            [⟨0, "ann", ""⟩], [], 1⟩)) ∧
    ((⟨[⟨0, "ann@x.com", "", "", some (make_password "pw123456")⟩],
        [⟨0, "ann", ""⟩], [], 1⟩ : DB).social_accounts.find?
        (fun sa => sa.provider == "google" &&
          sa.uid == (⟨"g7", "ann@x.com", "Ann A", "Ann", "A"⟩ : GoogleInfo).id) = none →
      ∀ u, (⟨[⟨0, "ann@x.com", "", "", some (make_password "pw123456")⟩],
          [⟨0, "ann", ""⟩], [], 1⟩ : DB).users.find?
          (fun x => x.email ==
            (⟨"g7", "ann@x.com", "Ann A", "Ann", "A"⟩ : GoogleInfo).email) = some u →
        get_or_create_user_from_google
          ⟨[⟨0, "ann@x.com", "", "", some (make_password "pw123456")⟩],
            [⟨0, "ann", ""⟩], [], 1⟩
          ⟨"g7", "ann@x.com", "Ann A", "Ann", "A"⟩ =
          .ok ((u.id, false),
            { (⟨[⟨0, "ann@x.com", "", "", some (make_password "pw123456")⟩],
                [⟨0, "ann", ""⟩], [], 1⟩ : DB) with social_accounts :=
                (⟨[⟨0, "ann@x.com", "", "", some (make_password "pw123456")⟩],
                  [⟨0, "ann", ""⟩], [], 1⟩ : DB).social_accounts ++
                  [⟨"google",
                    (⟨"g7", "ann@x.com", "Ann A", "Ann", "A"⟩ : GoogleInfo).id,
                    u.id⟩] })) ∧
    ((⟨[⟨0, "ann@x.com", "", "", some (make_password "pw123456")⟩],
        [⟨0, "ann", ""⟩], [], 1⟩ : DB).social_accounts.find?
        (fun sa => sa.provider == "google" &&
          sa.uid == (⟨"g7", "ann@x.com", "Ann A", "Ann", "A"⟩ : GoogleInfo).id) = none →
      (⟨[⟨0, "ann@x.com", "", "", some (make_password "pw123456")⟩],
        [⟨0, "ann", ""⟩], [], 1⟩ : DB).users.find?
        (fun x => x.email ==
          (⟨"g7", "ann@x.com", "Ann A", "Ann", "A"⟩ : GoogleInfo).email) = none →
      (⟨[⟨0, "ann@x.com", "", "", some (make_password "pw123456")⟩],
        [⟨0, "ann", ""⟩], [], 1⟩ : DB).users.any
        (fun x => x.email == normalize_email
          (⟨"g7", "ann@x.com", "Ann A", "Ann", "A"⟩ : GoogleInfo).email) = false →
      ∃ db', get_or_create_user_from_google
          ⟨[⟨0, "ann@x.com", "", "", some (make_password "pw123456")⟩],
            [⟨0, "ann", ""⟩], [], 1⟩
          ⟨"g7", "ann@x.com", "Ann A", "Ann", "A"⟩ =
          .ok (((⟨[⟨0, "ann@x.com", "", "", some (make_password "pw123456")⟩],
            [⟨0, "ann", ""⟩], [], 1⟩ : DB).next_user_id, true), db') ∧
        db'.social_accounts =
          (⟨[⟨0, "ann@x.com", "", "", some (make_password "pw123456")⟩],
            [⟨0, "ann", ""⟩], [], 1⟩ : DB).social_accounts ++
            [⟨"google", (⟨"g7", "ann@x.com", "Ann A", "Ann", "A"⟩ : GoogleInfo).id,
              (⟨[⟨0, "ann@x.com", "", "", some (make_password "pw123456")⟩],
                [⟨0, "ann", ""⟩], [], 1⟩ : DB).next_user_id⟩] ∧
        db'.users.length =
          (⟨[⟨0, "ann@x.com", "", "", some (make_password "pw123456")⟩],
            [⟨0, "ann", ""⟩], [], 1⟩ : DB).users.length + 1) ∧
    ((⟨[⟨0, "ann@x.com", "", "", some (make_password "pw123456")⟩],
        [⟨0, "ann", ""⟩], [], 1⟩ : DB).social_accounts.find?
        (fun sa => sa.provider == "google" &&
          sa.uid == (⟨"g7", "ann@x.com", "Ann A", "Ann", "A"⟩ : GoogleInfo).id) = none →
      (⟨[⟨0, "ann@x.com", "", "", some (make_password "pw123456")⟩],
        [⟨0, "ann", ""⟩], [], 1⟩ : DB).users.find?
        (fun x => x.email ==
          (⟨"g7", "ann@x.com", "Ann A", "Ann", "A"⟩ : GoogleInfo).email) = none →
      (⟨[⟨0, "ann@x.com", "", "", some (make_password "pw123456")⟩],
        [⟨0, "ann", ""⟩], [], 1⟩ : DB).users.any
        (fun x => x.email == normalize_email
          (⟨"g7", "ann@x.com", "Ann A", "Ann", "A"⟩ : GoogleInfo).email) = true →
      ∃ e, get_or_create_user_from_google
          ⟨[⟨0, "ann@x.com", "", "", some (make_password "pw123456")⟩],
            [⟨0, "ann", ""⟩], [], 1⟩
          ⟨"g7", "ann@x.com", "Ann A", "Ann", "A"⟩ = .error e) ∧
    (∀ uid c db', get_or_create_user_from_google
        ⟨[⟨0, "ann@x.com", "", "", some (make_password "pw123456")⟩],
          [⟨0, "ann", ""⟩], [], 1⟩
        ⟨"g7", "ann@x.com", "Ann A", "Ann", "A"⟩ = .ok ((uid, c), db') →
      get_or_create_user_from_google db'
        ⟨"g7", "ann@x.com", "Ann A", "Ann", "A"⟩ = .ok ((uid, false), db'))) :=
  ⟨⟨by decide, by decide⟩, C4_social_resolution
    ⟨[⟨0, "ann@x.com", "", "", some (make_password "pw123456")⟩],
      [⟨0, "ann", ""⟩], [], 1⟩
    ⟨"g7", "ann@x.com", "Ann A", "Ann", "A"⟩ (by decide) (by decide)⟩

/-!  Logout / refresh-token revocation (`users/views.py` lines 123-133).
The view builds `RefreshToken(refresh_token)` and calls
`token.blacklist()`; the `rest_framework_simplejwt` token types are the
external Token Service, embedded here by their documented behaviour as
configured in this repository (the `token_blacklist` app is installed —
`token.blacklist()` only exists under that configuration, and the
repository's logout test passes). -/

/-- A refresh token as submitted to the view: either malformed
(bad signature/format/type) or wellformed, carrying its `jti` claim and
whether its expiry has passed. -/
inductive RefreshTokenData where
  | malformed
  | wellformed (jti : Nat) (expired : Bool)
  deriving DecidableEq, Repr

/-- Verification run by the `RefreshToken(token)` constructor: decoding
rejects a malformed or expired token (`TokenError`), and with the
blacklist app installed `BlacklistMixin.verify` additionally rejects a
token whose `jti` is already blacklisted.  Returns the `jti` on
success. -/
def refresh_token_init (blacklist : List Nat) : RefreshTokenData → Option Nat
  | .malformed => none
  | .wellformed jti expired =>
    if expired then none
    else if jti ∈ blacklist then none
    else some jti

/-- `token.blacklist()`: `get_or_create` on the blacklisted-token table —
inserting an already-present identifier is a no-op. -/
def blacklist_add (blacklist : List Nat) (jti : Nat) : List Nat :=
  if jti ∈ blacklist then blacklist else blacklist ++ [jti]

/-- `logout_view` (`users/views.py` lines 125-133): a missing token still
answers 200; otherwise the token is constructed (any exception is caught
and answered with 400 "Invalid token") and blacklisted.  Returns the
HTTP status and the new blacklist. -/
def logout_view (blacklist : List Nat) (refresh : Option RefreshTokenData) :
    Nat × List Nat :=
  match refresh with
  | none => (200, blacklist)
  | some t =>
    match refresh_token_init blacklist t with
    | none => (400, blacklist)
    | some jti => (200, blacklist_add blacklist jti)

/-- Counterexample to C5 as stated: a syntactically valid (wellformed,
unexpired) token whose `jti` 5 is already blacklisted gets the 400
"Invalid token" answer instead of a no-op success, and so does a
wellformed token that has merely expired — the exact two prior states
the claim says must yield success. -/
theorem C5_counterexample :
    logout_view [5] (some (.wellformed 5 false)) = (400, [5]) ∧
    logout_view [] (some (.wellformed 5 true)) = (400, []) ∧
    (400 : Nat) ≠ 200 := by decide

/-- The amended claim C5: logout succeeds (200, with the `jti` appended to
the blacklist) exactly for a wellformed, unexpired, not-yet-revoked
refresh token — and, vacuously, for a request without a token; a token
that is malformed, expired, OR already revoked is answered with the 400
invalid-token error and the blacklist is unchanged. -/
theorem C5_logout_revocation (bl : List Nat) (t : RefreshTokenData) :
    (∀ jti, t = .wellformed jti false → jti ∉ bl →
      logout_view bl (some t) = (200, bl ++ [jti])) ∧
    ((t = .malformed ∨ (∃ jti, t = .wellformed jti true) ∨
        (∃ jti, t = .wellformed jti false ∧ jti ∈ bl)) →
      logout_view bl (some t) = (400, bl)) ∧
    logout_view bl none = (200, bl) := by
  refine ⟨?_, ?_, rfl⟩
  · intro jti ht hnotin
    subst ht
    simp [logout_view, refresh_token_init, blacklist_add, hnotin]
  · intro hbad
    rcases hbad with ht | ⟨jti, ht⟩ | ⟨jti, ht, hin⟩
    · subst ht
      rfl
    · subst ht
      simp [logout_view, refresh_token_init]
    · subst ht
      simp [logout_view, refresh_token_init, hin]

/-- Witness for the amended C5: the fresh token with `jti` 7 against a
blacklist already holding 5. -/
theorem C5_logout_revocation_witness :
    (∀ jti, (RefreshTokenData.wellformed 7 false) = .wellformed jti false →
      jti ∉ [5] →
      logout_view [5] (some (.wellformed 7 false)) = (200, [5] ++ [jti])) ∧
    (((RefreshTokenData.wellformed 7 false) = .malformed ∨
        (∃ jti, (RefreshTokenData.wellformed 7 false) = .wellformed jti true) ∨
        (∃ jti, (RefreshTokenData.wellformed 7 false) = .wellformed jti false ∧
          jti ∈ [5])) →
      logout_view [5] (some (.wellformed 7 false)) = (400, [5])) ∧
    logout_view [5] none = (200, [5]) :=
  C5_logout_revocation [5] (.wellformed 7 false)

end SocialMedia
